import Mathlib

/-!
Shallow embedding of the analyze-keyframes program (src/analyze-keyframes.cpp)
and verification of its specification.

Modelling conventions:
* `uint8_t` pixel values are `Nat` (the program only ever stores values 0..255;
  no arithmetic in the modelled code overflows or wraps).
* C++ `float` results of `median` are modelled as `ℚ`.  All medians computed by
  the program are of the form `(a + b) / 2` with `a, b ≤ 255` integers, which
  `float` represents exactly, so the `ℚ` model is exact.
* `std::nth_element(v.begin(), v.begin() + middle, v.end())` is modelled by
  fully sorting the buffer.  A full sort satisfies the `nth_element`
  postcondition (the element at `middle` is the `middle`-th order statistic and
  everything before it is `≤` it), so this is a valid deterministic refinement
  of the library call.
* The `std::set` with comparator `a->frameNumber < b->frameNumber` is modelled
  as a list kept strictly sorted by `frameNumber`, with `std::set::insert`
  semantics: inserting an element whose key is already present leaves the set
  unchanged (the new element is discarded, the existing one is kept).
* Threads are modelled as explicit state-transition functions; one loop
  iteration of the C++ code becomes one application of the step function.
-/

namespace AnalyzeKeyframes

/-- `static const unsigned VerticalCellCount = 3;` -/
def VerticalCellCount : Nat := 3

/-- `static const unsigned HorizontalCellCount = 3;` -/
def HorizontalCellCount : Nat := 3

/-- `static const unsigned MaxUnprocessedFrameCount = 100;` -/
def MaxUnprocessedFrameCount : Nat := 100

/-!
## The `median` function (src/analyze-keyframes.cpp lines 331-347)

```cpp
static inline float median(vector<uint8_t>& v)
{
    int middle = v.size() / 2;
    nth_element(v.begin(), v.begin() + middle, v.end());
    float median = v[middle];
    if (v.size() & 1)
        return median;
    auto iter = max_element(v.begin(), v.begin() + middle - 1);
    return (median + *iter) / 2;
}
```
-/

/-- Embedding of `median`.  `nth_element` is modelled by a full sort (a valid
deterministic implementation of the partial selection).  In the even branch the
`max_element` range `[v.begin(), v.begin() + middle - 1)` holds the first
`middle - 1` elements of the rearranged buffer; when that range is empty
(`middle = 1`, i.e. a 2-element buffer) `max_element` returns its first
iterator, so the subsequent dereference reads the element at index 0. -/
def median (v : List Nat) : ℚ :=
  let middle := v.length / 2
  let sorted := List.insertionSort (· ≤ ·) v
  let med : ℚ := (sorted.getD middle 0 : Nat)
  if v.length % 2 = 1 then med
  else
    let lowerRange := sorted.take (middle - 1)
    let maxLower : Nat := match lowerRange with
      | [] => sorted.getD 0 0
      | x :: xs => xs.foldl max x
    (med + maxLower) / 2

/-- Number of elements in the `max_element` search range
`[v.begin(), v.begin() + middle - 1)` of `median`'s even branch, as a function
of the buffer size `n` (where `middle = n / 2`). -/
def maxElementRangeLength (n : Nat) : Nat := n / 2 - 1

/-- The indices of `v` read by `median` after the `nth_element` call, as a
function of the buffer size `n`: the middle element `v[middle]`; in the even
branch additionally the `max_element` range `[0, middle - 1)`, or index `0`
when that range is empty (dereferencing the first iterator that `max_element`
returns for an empty range). -/
def medianReadIndices (n : Nat) : List Nat :=
  if n % 2 = 1 then [n / 2]
  else if n / 2 - 1 = 0 then [n / 2, 0]
  else n / 2 :: List.range (n / 2 - 1)

/-!
## `cellMedian` (src/analyze-keyframes.cpp lines 349-359)

```cpp
static inline float cellMedian(const uint8_t* data, int lineSize, unsigned xOffset, unsigned xPixels, unsigned yOffset, unsigned yPixels)
{
    vector<uint8_t> pixels(xPixels * yPixels);
    for (unsigned y = 0; y < yPixels; ++y)
        memcpy(&pixels[y * xPixels], &data[(yOffset + y) * lineSize + xOffset], xPixels);
    return median(pixels);
}
```
-/

/-- The pixel buffer gathered by `cellMedian`'s copy loop: row `y` of the cell
is the `xPixels` bytes starting at `data[(yOffset + y) * lineSize + xOffset]`,
and rows are laid out consecutively (`pixels[y * xPixels + x]`). -/
def cellPixels (data : Nat → Nat) (lineSize xOffset xPixels yOffset yPixels : Nat) :
    List Nat :=
  (List.range yPixels).flatMap fun y =>
    (List.range xPixels).map fun x => data ((yOffset + y) * lineSize + (xOffset + x))

/-- Embedding of `cellMedian`. -/
def cellMedian (data : Nat → Nat) (lineSize xOffset xPixels yOffset yPixels : Nat) : ℚ :=
  median (cellPixels data lineSize xOffset xPixels yOffset yPixels)

/-!
## The grid recurrence of `analyzeGrayscaleFrame` (lines 379-407)

```cpp
for (unsigned y = 0; y < VerticalCellCount; ++y) {
    unsigned yOffset = frame->height - remainingHeight;
    unsigned yPixels = remainingHeight / (VerticalCellCount - y);
    remainingHeight -= yPixels;
    int remainingWidth = frame->width;
    for (unsigned x = 0; x < HorizontalCellCount; ++x) {
        unsigned xOffset = frame->width - remainingWidth;
        unsigned xPixels = remainingWidth / (HorizontalCellCount - x);
        remainingWidth -= xPixels;
        float median = cellMedian(data, lineSize, xOffset, xPixels, yOffset, yPixels);
        analysis->values[y * HorizontalCellCount + x] = median;
    }
}
```
-/

/-- The `(offset, size)` pairs produced by the band recurrence: at each step
(with `bands` bands left) the offset is `total - remaining` and the size is
`remaining / bands`, after which `remaining` decreases by the size. -/
def offsetSizesAux (total : Nat) : Nat → Nat → List (Nat × Nat)
  | _, 0 => []
  | remaining, b + 1 =>
    (total - remaining, remaining / (b + 1)) ::
      offsetSizesAux total (remaining - remaining / (b + 1)) b

/-- Offsets and sizes of the `bands` bands into which the recurrence splits an
extent of `total` pixels (`remaining` starts at `total`). -/
def offsetSizes (total bands : Nat) : List (Nat × Nat) :=
  offsetSizesAux total total bands

/-- The band sizes alone (`cellHeight` resp. `cellWidth` values). -/
def bandSizes (total bands : Nat) : List Nat :=
  (offsetSizes total bands).map Prod.snd

/-- Inner (column) loop of `analyzeGrayscaleFrame`: produces the medians of one
row-band's cells, left to right.  `remainingWidth` starts at `W` and `b` counts
the column bands still to produce (`b = HorizontalCellCount - x`). -/
def analyzeColsAux (data : Nat → Nat) (lineSize W yOffset yPixels : Nat) :
    Nat → Nat → List ℚ
  | _, 0 => []
  | remainingWidth, b + 1 =>
    cellMedian data lineSize (W - remainingWidth) (remainingWidth / (b + 1)) yOffset yPixels ::
      analyzeColsAux data lineSize W yOffset yPixels
        (remainingWidth - remainingWidth / (b + 1)) b

/-- Outer (row) loop of `analyzeGrayscaleFrame`: concatenates the row-bands'
cell medians in row-major order (`values[y * HorizontalCellCount + x]`). -/
def analyzeRowsAux (data : Nat → Nat) (lineSize W H : Nat) : Nat → Nat → List ℚ
  | _, 0 => []
  | remainingHeight, b + 1 =>
    analyzeColsAux data lineSize W (H - remainingHeight)
        (remainingHeight / (b + 1)) W HorizontalCellCount ++
      analyzeRowsAux data lineSize W H
        (remainingHeight - remainingHeight / (b + 1)) b

/-- The 9 cell medians computed by `analyzeGrayscaleFrame` for a grayscale
buffer of width `W`, height `H`, row stride `lineSize` and byte map `data`, in
row-major cell order. -/
def analyzeGrayscaleFrameValues (W H lineSize : Nat) (data : Nat → Nat) : List ℚ :=
  analyzeRowsAux data lineSize W H H VerticalCellCount

/-!
## Data model: frames and fingerprints
-/

/-- The fields of an `AVFrame` that the analysis code reads: `coded_picture_number`
(used as `frameNumber`), `best_effort_timestamp`, `width`, `height`,
`linesize[0]` and the grayscale byte buffer `data[0]` (flattened, indexed by
`row * lineSize + column`). -/
structure Frame where
  frameNumber : Int
  bestEffortTimestamp : Int
  width : Nat
  height : Nat
  lineSize : Nat
  data : List Nat
deriving DecidableEq, Repr

/-- `struct FrameAnalysis` (lines 64-69): timestamp, frame number and the
`array<float, VerticalCellCount * HorizontalCellCount>` of cell medians
(modelled as a list, so that its length is a provable property rather than a
typing assumption). -/
structure FrameAnalysis where
  timestamp : ℚ
  frameNumber : Int
  values : List ℚ
deriving DecidableEq, Repr

/-- The `FrameAnalysis` built by `analyzeGrayscaleFrame` (lines 385-403) for a
frame: `timestamp = best_effort_timestamp * av_q2d(videoTimeBase)`,
`frameNumber = coded_picture_number`, and the 9 grid cell medians. -/
def frameAnalysisOf (timeBase : ℚ) (frame : Frame) : FrameAnalysis :=
  ⟨(frame.bestEffortTimestamp : ℚ) * timeBase,
    frame.frameNumber,
    analyzeGrayscaleFrameValues frame.width frame.height frame.lineSize
      (fun i => frame.data.getD i 0)⟩

/-!
## The Result Aggregate (lines 76-78)

```cpp
auto comparator = [](const unique_ptr<FrameAnalysis>& a, const unique_ptr<FrameAnalysis>& b) { return a->frameNumber < b->frameNumber; };
set<unique_ptr<FrameAnalysis>, decltype(comparator)> processedFrameData(comparator);
```

`std::set::insert` with this comparator: the new element is placed at its
ordered position; if an element with an equivalent key (equal `frameNumber`)
already exists, the insertion fails and the set is unchanged.
-/

/-- `std::set` insertion keyed by `frameNumber`: keeps the list strictly sorted
by `frameNumber` and leaves it unchanged when the key is already present (the
existing element is kept, the new one is discarded — never an overwrite). -/
def setInsert (s : List FrameAnalysis) (a : FrameAnalysis) : List FrameAnalysis :=
  match s with
  | [] => [a]
  | b :: rest =>
    if a.frameNumber < b.frameNumber then a :: b :: rest
    else if b.frameNumber < a.frameNumber then b :: setInsert rest a
    else b :: rest

/-- The Result Aggregate invariant: the in-order traversal has strictly
increasing `frameNumber`. -/
def FrameNumberSorted (s : List FrameAnalysis) : Prop :=
  List.Pairwise (fun a b => a.frameNumber < b.frameNumber) s

/-- `analyzeGrayscaleFrame` (lines 379-407): computes the frame's analysis and
inserts it into the aggregate under `processedFrameDataMutex`. -/
def analyzeGrayscaleFrame (timeBase : ℚ) (frame : Frame)
    (aggregate : List FrameAnalysis) : List FrameAnalysis :=
  setInsert aggregate (frameAnalysisOf timeBase frame)

/-!
## `processKeyframe` (lines 298-329) and `workerThread` (lines 277-295)
-/

/-- `processKeyframe`: if `av_image_alloc` fails (`allocOk = false`) the
failure is logged and the function returns without analyzing — nothing is
inserted into the aggregate.  Otherwise the frame is converted to grayscale
and `analyzeGrayscaleFrame` runs, inserting the fingerprint. -/
def processKeyframe (timeBase : ℚ) (allocOk : Bool) (frame : Frame)
    (aggregate : List FrameAnalysis) : List FrameAnalysis :=
  if allocOk = false then aggregate
  else analyzeGrayscaleFrame timeBase frame aggregate

/-- State shared by a worker thread: the `unprocessedFrames` queue, the
`processedFrameData` aggregate, and whether this worker has returned from
`workerThread`. -/
structure WorkerState where
  queue : List Frame
  aggregate : List FrameAnalysis
  exited : Bool
deriving DecidableEq, Repr

/-- One iteration of `workerThread`'s loop:

```cpp
while (true) {
    AVFramePtr frame;
    { lock; if (unprocessedFrames.size()) { frame.swap(front); pop_front(); } }
    if (frame)
        processKeyframe(frame.get());
    if (processingComplete)
        return;
}
```

Pops the front frame if the queue is non-empty, processes it, then returns
(exits) exactly when `processingComplete` is observed — without re-checking
whether the queue is empty. -/
def workerIteration (processingComplete : Bool) (timeBase : ℚ) (allocOk : Bool)
    (s : WorkerState) : WorkerState :=
  if s.exited then s
  else
    match s.queue with
    | [] => ⟨[], s.aggregate, processingComplete⟩
    | f :: rest =>
      ⟨rest, processKeyframe timeBase allocOk f s.aggregate, processingComplete⟩

/-!
## The producer loop of `main` (lines 184-215) and backpressure
-/

/-- State of the producer loop together with the decode stream: `queue` is
`unprocessedFrames` (frame ids), `pending` is the not-yet-read remainder of the
stream (one entry per packet, each decoding to a list of frames), `enqueued`
records every frame ever pushed onto the queue, and `sleptMs` accumulates the
milliseconds slept in the backpressure branch. -/
structure ProducerState where
  queue : List Nat
  pending : List (List Nat)
  enqueued : List Nat
  sleptMs : Nat
deriving DecidableEq, Repr

/-- One iteration of the producer loop: under `unprocessedFramesMutex` the
queue size is read; if it is at least `MaxUnprocessedFrameCount` the producer
logs, sleeps 10 ms and re-checks (`continue`) — no packet is read or enqueued.
Otherwise the next packet is read and every frame the decoder returns for it
is pushed onto the queue (`processPacket`, lines 249-275, pushes each received
frame). An exhausted stream (`AVERROR_EOF`) leaves the state unchanged. -/
def producerIteration (s : ProducerState) : ProducerState :=
  if MaxUnprocessedFrameCount ≤ s.queue.length then
    ⟨s.queue, s.pending, s.enqueued, s.sleptMs + 10⟩
  else
    match s.pending with
    | [] => s
    | frames :: rest => ⟨s.queue ++ frames, rest, s.enqueued ++ frames, s.sleptMs⟩

/-- A worker removing the front frame from the queue (the only way frames
leave it). -/
def workerPop (s : ProducerState) : ProducerState :=
  match s.queue with
  | [] => s
  | _ :: rest => ⟨rest, s.pending, s.enqueued, s.sleptMs⟩

/-- Interleaved execution: each step is a producer iteration (`true`) or a
worker pop (`false`). -/
def systemStep (producerTurn : Bool) (s : ProducerState) : ProducerState :=
  if producerTurn then producerIteration s else workerPop s

/-- A finite interleaving of producer iterations and worker pops. -/
def systemRun (sched : List Bool) (s : ProducerState) : ProducerState :=
  match sched with
  | [] => s
  | turn :: rest => systemRun rest (systemStep turn s)

/-!
## Worker pool size (lines 178-179)

```cpp
unsigned threadCount = thread::hardware_concurrency();
threadCount = threadCount ? threadCount : 4;
```
-/

/-- The worker pool size as a function of the detected hardware concurrency
(`0` meaning undetectable). -/
def threadCount (hardwareConcurrency : Nat) : Nat :=
  if hardwareConcurrency ≠ 0 then hardwareConcurrency else 4

/-- The number of threads actually spawned by the loop
`for (unsigned i = 0; i < threadCount; ++i) threads.push_back(thread(workerThread));`. -/
def spawnedThreadCount (hardwareConcurrency : Nat) : Nat :=
  (List.range (threadCount hardwareConcurrency)).length

/-!
## Control flow of `main` (lines 82-228)

`main` performs a sequence of startup checks, each returning `-1` on failure;
only after all of them succeed does it remove the old CSV file, spawn the
worker pool and enter the producer loop.  The producer loop ends cleanly at
`AVERROR_EOF`; a read error or a `processPacket` failure returns `-1`
immediately (discarding everything aggregated so far).  On clean loop exit it
sets `processingComplete`, joins the workers, calls `outputFrameAnalysis()`
**ignoring its return value**, and returns `0`.
-/

/-- Outcome of one `av_read_frame` call as `main`'s loop distinguishes them:
end of stream, a read error, or a packet (with its stream kind and whether
`processPacket` succeeds on it). -/
inductive ReadResult
  | eof
  | readError
  | packet (isVideoStream : Bool) (processOk : Bool)
deriving DecidableEq, Repr

/-- The environment a run of `main` executes in: the argument count and the
success/failure of each external call, in the order `main` makes them. -/
structure RunEnv where
  argc : Nat
  openOk : Bool
  streamInfoOk : Bool
  videoStream : Option (Int × Int)
  paramsToContextOk : Bool
  codecOpenOk : Bool
  packets : List ReadResult
  csvOpenOk : Bool
deriving DecidableEq, Repr

/-- What a run produced: the process exit code, whether the pipeline was
started (old CSV removed, worker threads spawned, producer loop entered), and
whether the CSV output was written. -/
structure MainResult where
  exitCode : Int
  pipelineStarted : Bool
  outputWritten : Bool
deriving DecidableEq, Repr

/-- The producer loop's verdict over the packet stream: `true` means the loop
exited cleanly via `AVERROR_EOF` (`break`), `false` means it returned `-1`
(read error, or `processPacket` failure on a video packet).  Packets of other
streams are skipped (`continue`). -/
def runLoop : List ReadResult → Bool
  | [] => true
  | ReadResult.eof :: _ => true
  | ReadResult.readError :: _ => false
  | ReadResult.packet isVideo ok :: rest =>
    if isVideo = false then runLoop rest
    else if ok = false then false
    else runLoop rest

/-- `outputFrameAnalysis` (lines 361-377): returns `false` when the CSV file
cannot be opened (logging an error), `true` after writing one row per
aggregated analysis. -/
def outputFrameAnalysisOk (csvOpenOk : Bool) : Bool :=
  if csvOpenOk = false then false else true

/-- Embedding of `main`'s control flow.  The width/height check transcribes
`width <= 0 || (unsigned)width < HorizontalCellCount || height <= 0 ||
(unsigned)height < VerticalCellCount` (the unsigned casts are guarded by the
`<= 0` tests, so over `ℤ` the condition is as written).  Note the final
success path: `outputFrameAnalysis();` is called with its `bool` result
discarded, and `main` returns `0` regardless. -/
def mainRun (env : RunEnv) : MainResult :=
  if env.argc < 2 then ⟨-1, false, false⟩
  else if env.openOk = false then ⟨-1, false, false⟩
  else if env.streamInfoOk = false then ⟨-1, false, false⟩
  else
    match env.videoStream with
    | none => ⟨-1, false, false⟩
    | some wh =>
      if wh.1 ≤ 0 ∨ wh.1 < (HorizontalCellCount : Int) ∨
          wh.2 ≤ 0 ∨ wh.2 < (VerticalCellCount : Int) then ⟨-1, false, false⟩
      else if env.paramsToContextOk = false then ⟨-1, false, false⟩
      else if env.codecOpenOk = false then ⟨-1, false, false⟩
      else if runLoop env.packets then ⟨0, true, outputFrameAnalysisOk env.csvOpenOk⟩
      else ⟨-1, true, false⟩

/-!
## Helper lemmas
-/

lemma offsetSizesAux_length (t : Nat) : ∀ b r, (offsetSizesAux t r b).length = b := by
  intro b
  induction b with
  | zero => intro r; rfl
  | succ k ih => intro r; simp [offsetSizesAux, ih]

lemma offsetSizesAux_snd_sum (t : Nat) :
    ∀ b r, 1 ≤ b → ((offsetSizesAux t r b).map Prod.snd).sum = r := by
  intro b
  induction b with
  | zero => intro r h; omega
  | succ k ih =>
    intro r _
    cases k with
    | zero => simp [offsetSizesAux, Nat.div_one]
    | succ m =>
      have hle : r / (m + 1 + 1) ≤ r := Nat.div_le_self r (m + 1 + 1)
      have hstep : offsetSizesAux t r (m + 1 + 1) =
          (t - r, r / (m + 1 + 1)) ::
            offsetSizesAux t (r - r / (m + 1 + 1)) (m + 1) := rfl
      rw [hstep, List.map_cons, List.sum_cons,
        ih (r - r / (m + 1 + 1)) (Nat.succ_le_succ (Nat.zero_le m))]
      omega

lemma bandSizes_sum (t b : Nat) (hb : 1 ≤ b) : (bandSizes t b).sum = t :=
  offsetSizesAux_snd_sum t b t hb

lemma analyzeColsAux_eq (data : Nat → Nat) (ls W yo yp : Nat) :
    ∀ b r, analyzeColsAux data ls W yo yp r b =
      (offsetSizesAux W r b).map fun p => cellMedian data ls p.1 p.2 yo yp := by
  intro b
  induction b with
  | zero => intro r; rfl
  | succ k ih => intro r; simp [analyzeColsAux, offsetSizesAux, ih]

lemma analyzeRowsAux_eq (data : Nat → Nat) (ls W H : Nat) :
    ∀ b r, analyzeRowsAux data ls W H r b =
      (offsetSizesAux H r b).flatMap fun p =>
        analyzeColsAux data ls W p.1 p.2 W HorizontalCellCount := by
  intro b
  induction b with
  | zero => intro r; rfl
  | succ k ih => intro r; simp [analyzeRowsAux, offsetSizesAux, ih]

lemma analyzeColsAux_length (data : Nat → Nat) (ls W yo yp : Nat) (b r : Nat) :
    (analyzeColsAux data ls W yo yp r b).length = b := by
  rw [analyzeColsAux_eq, List.length_map, offsetSizesAux_length]

lemma analyzeRowsAux_length (data : Nat → Nat) (ls W H : Nat) :
    ∀ b r, (analyzeRowsAux data ls W H r b).length = HorizontalCellCount * b := by
  intro b
  induction b with
  | zero => simp [analyzeRowsAux]
  | succ k ih =>
    intro r
    simp only [analyzeRowsAux, List.length_append, analyzeColsAux_length, ih]
    ring

lemma analyzeGrayscaleFrameValues_length (W H lineSize : Nat) (data : Nat → Nat) :
    (analyzeGrayscaleFrameValues W H lineSize data).length =
      VerticalCellCount * HorizontalCellCount := by
  unfold analyzeGrayscaleFrameValues
  rw [analyzeRowsAux_length]
  exact Nat.mul_comm HorizontalCellCount VerticalCellCount

lemma mem_setInsert {s : List FrameAnalysis} {a c : FrameAnalysis}
    (h : c ∈ setInsert s a) : c ∈ s ∨ c = a := by
  induction s with
  | nil =>
    simp only [setInsert, List.mem_singleton] at h
    exact Or.inr h
  | cons b rest ih =>
    by_cases h1 : a.frameNumber < b.frameNumber
    · simp only [setInsert, if_pos h1, List.mem_cons] at h
      rcases h with h | h | h
      · exact Or.inr h
      · exact Or.inl (by rw [h]; exact List.mem_cons_self b rest)
      · exact Or.inl (List.mem_cons_of_mem b h)
    · by_cases h2 : b.frameNumber < a.frameNumber
      · simp only [setInsert, if_neg h1, if_pos h2, List.mem_cons] at h
        rcases h with h | h
        · exact Or.inl (h ▸ List.mem_cons_self b rest)
        · rcases ih h with h | h
          · exact Or.inl (List.mem_cons_of_mem b h)
          · exact Or.inr h
      · simp only [setInsert, if_neg h1, if_neg h2] at h
        exact Or.inl h

lemma setInsert_pairwise {s : List FrameAnalysis} (a : FrameAnalysis)
    (hs : FrameNumberSorted s) : FrameNumberSorted (setInsert s a) := by
  induction s with
  | nil =>
    simp [setInsert, FrameNumberSorted]
  | cons b rest ih =>
    rcases List.pairwise_cons.mp hs with ⟨hb, hrest⟩
    by_cases h1 : a.frameNumber < b.frameNumber
    · simp only [setInsert, if_pos h1]
      refine List.pairwise_cons.mpr ⟨?_, hs⟩
      intro c hc
      rcases List.mem_cons.mp hc with h | h
      · rw [h]; exact h1
      · exact lt_trans h1 (hb c h)
    · by_cases h2 : b.frameNumber < a.frameNumber
      · simp only [setInsert, if_neg h1, if_pos h2]
        refine List.pairwise_cons.mpr ⟨?_, ih hrest⟩
        intro c hc
        rcases mem_setInsert hc with h | h
        · exact hb c h
        · rw [h]; exact h2
      · simpa only [setInsert, if_neg h1, if_neg h2] using hs

lemma setInsert_duplicate {s : List FrameAnalysis} (a : FrameAnalysis)
    (hs : FrameNumberSorted s) (hdup : ∃ b ∈ s, b.frameNumber = a.frameNumber) :
    setInsert s a = s := by
  induction s with
  | nil => simp at hdup
  | cons b rest ih =>
    rcases List.pairwise_cons.mp hs with ⟨hb, hrest⟩
    obtain ⟨d, hd, hdeq⟩ := hdup
    by_cases h1 : a.frameNumber < b.frameNumber
    · exfalso
      rcases List.mem_cons.mp hd with h | h
      · have hba : b.frameNumber = a.frameNumber := by rw [← h]; exact hdeq
        rw [hba] at h1
        exact lt_irrefl _ h1
      · have hba : b.frameNumber < a.frameNumber := hdeq ▸ hb d h
        exact lt_asymm h1 hba
    · by_cases h2 : b.frameNumber < a.frameNumber
      · have hdrest : d ∈ rest := by
          rcases List.mem_cons.mp hd with h | h
          · exact absurd (h ▸ hdeq) (ne_of_lt h2)
          · exact h
        simp only [setInsert, if_neg h1, if_pos h2]
        rw [ih hrest ⟨d, hdrest, hdeq⟩]
      · simp only [setInsert, if_neg h1, if_neg h2]

/-!
## Claim theorems
-/

/-- Claim C1 (code bug evaluation): on the spec's own hand-computed case, the
sorted buffer `[10, 20, 30, 40]`, the program's `median` returns `20`, not the
`25` the claim (and the code's own comment, which says the even branch yields
the true median, the average of the middle two elements) requires.  The
`max_element` range `[v.begin(), v.begin() + middle - 1)` stops one element
short of the middle, so it misses the top element of the lower half. -/
theorem C1_median_even_case :
    median [10, 20, 30, 40] = 20 ∧ median [10, 20, 30, 40] ≠ 25 := by
  constructor
  · simp [median, List.insertionSort, List.orderedInsert]
    norm_num
  · simp [median, List.insertionSort, List.orderedInsert]
    norm_num

/-- Claim C3: for every grayscale buffer with `W ≥ C` and `H ≥ R`, the
extractor is exactly the band recurrence (`cellHeight = remainingHeight /
(R - y)`, `yOffset = H - remainingHeight`, identically per row-band over
`remainingWidth` for the columns), it produces exactly `R*C = 9` medians in
row-major cell order, and the per-band heights sum to `H` and widths to `W`
(the partition covers the image with no gaps or overlaps). -/
theorem C3_grid_partition (W H lineSize : Nat) (data : Nat → Nat)
    (_hW : HorizontalCellCount ≤ W) (_hH : VerticalCellCount ≤ H) :
    analyzeGrayscaleFrameValues W H lineSize data =
      ((offsetSizes H VerticalCellCount).flatMap fun yp =>
        (offsetSizes W HorizontalCellCount).map fun xp =>
          cellMedian data lineSize xp.1 xp.2 yp.1 yp.2) ∧
    (analyzeGrayscaleFrameValues W H lineSize data).length =
      VerticalCellCount * HorizontalCellCount ∧
    (bandSizes H VerticalCellCount).sum = H ∧
    (bandSizes W HorizontalCellCount).sum = W := by
  refine ⟨?_, analyzeGrayscaleFrameValues_length W H lineSize data,
    bandSizes_sum H VerticalCellCount (by decide), bandSizes_sum W HorizontalCellCount (by decide)⟩
  unfold analyzeGrayscaleFrameValues offsetSizes
  rw [analyzeRowsAux_eq]
  refine congrArg _ (funext fun p => ?_)
  rw [analyzeColsAux_eq]

/-- Witness for C3 at the concrete input `W = H = lineSize = 4`, all-zero
pixels. -/
theorem C3_grid_partition_witness :
    analyzeGrayscaleFrameValues 4 4 4 (fun _ => 0) =
      ((offsetSizes 4 VerticalCellCount).flatMap fun yp =>
        (offsetSizes 4 HorizontalCellCount).map fun xp =>
          cellMedian (fun _ => 0) 4 xp.1 xp.2 yp.1 yp.2) ∧
    (analyzeGrayscaleFrameValues 4 4 4 (fun _ => 0)).length =
      VerticalCellCount * HorizontalCellCount ∧
    (bandSizes 4 VerticalCellCount).sum = 4 ∧
    (bandSizes 4 HorizontalCellCount).sum = 4 :=
  C3_grid_partition 4 4 4 (fun _ => 0) (by decide) (by decide)

/-- A 3×3 all-zero frame used in the C2 counterexample. -/
def cexFrame0 : Frame := ⟨0, 0, 3, 3, 3, List.replicate 9 0⟩

/-- A second 3×3 all-zero frame (frame number 1) used in the C2 counterexample. -/
def cexFrame1 : Frame := ⟨1, 1, 3, 3, 3, List.replicate 9 0⟩

/-- Claim C2 counterexample: with `processingComplete` set and two frames
queued, a single worker iteration pops and processes one frame and then
returns — the worker has exited while the queue is still non-empty, so a
worker does **not** exit only on observing "finished **and** queue empty", and
after all workers (here: the only worker) have exited the queue need not be
empty nor every enqueued frame processed. -/
theorem C2_counterexample :
    (workerIteration true 1 true ⟨[cexFrame0, cexFrame1], [], false⟩).exited = true ∧
    (workerIteration true 1 true ⟨[cexFrame0, cexFrame1], [], false⟩).queue ≠ [] := by
  refine ⟨rfl, ?_⟩
  intro h
  have hlen := congrArg List.length h
  simp only [workerIteration] at hlen
  simp at hlen

/-- Claim C2 as amended: a worker exits its loop exactly when it observes the
`processingComplete` flag at the end-of-iteration check, regardless of whether
the frame queue is empty at that point; each iteration processes at most the
single frame it popped, so frames may remain in the queue after every worker
has exited. -/
theorem C2_worker_exit_on_flag (processingComplete : Bool) (timeBase : ℚ)
    (allocOk : Bool) (s : WorkerState) :
    (workerIteration processingComplete timeBase allocOk s).exited =
      (s.exited || processingComplete) := by
  unfold workerIteration
  cases hex : s.exited
  · cases s.queue <;> simp [hex]
  · simp [hex]

/-- Claim C4: the Result Aggregate (`std::set` keyed by `frameNumber`) keeps
its in-order traversal strictly increasing in `frameNumber` across any
insertion, therefore holds at most one fingerprint per `frameNumber` (the
projected key list has no duplicates), and inserting a fingerprint whose
`frameNumber` is already present leaves the aggregate unchanged — the existing
entry is never overwritten. -/
theorem C4_aggregate_invariant (s : List FrameAnalysis) (a : FrameAnalysis)
    (hs : FrameNumberSorted s) :
    FrameNumberSorted (setInsert s a) ∧
    ((setInsert s a).map FrameAnalysis.frameNumber).Nodup ∧
    ((∃ b ∈ s, b.frameNumber = a.frameNumber) → setInsert s a = s) := by
  have hp := setInsert_pairwise a hs
  refine ⟨hp, ?_, setInsert_duplicate a hs⟩
  exact List.Pairwise.map FrameAnalysis.frameNumber (fun x y hxy => ne_of_lt hxy) hp

/-- Witness for C4: inserting a second fingerprint with frame number `5` into
an aggregate already holding frame `5` keeps the aggregate sorted and
unchanged. -/
theorem C4_aggregate_invariant_witness :
    FrameNumberSorted (setInsert [⟨0, 5, []⟩] ⟨1, 5, []⟩) ∧
    ((setInsert [⟨0, 5, []⟩] ⟨1, 5, []⟩).map FrameAnalysis.frameNumber).Nodup ∧
    ((∃ b ∈ [(⟨0, 5, []⟩ : FrameAnalysis)], b.frameNumber = (5 : Int)) →
      setInsert [⟨0, 5, []⟩] ⟨1, 5, []⟩ = [⟨0, 5, []⟩]) :=
  C4_aggregate_invariant [⟨0, 5, []⟩] ⟨1, 5, []⟩ (by simp [FrameNumberSorted])

/-- Claim C5 (code bug evaluation): in a run that reaches the end of the
stream but whose CSV output file cannot be opened, `outputFrameAnalysis`
reports failure (`false`), yet `main` discards that return value and exits
with status `0` and no output written — contradicting the claim that a CSV
writer failure is the run's final error and that exit code 0 is returned only
on success. -/
theorem C5_csv_failure_exit_zero :
    outputFrameAnalysisOk false = false ∧
    mainRun ⟨2, true, true, some (9, 9), true, true, [ReadResult.eof], false⟩ =
      ⟨0, true, false⟩ := by
  exact ⟨rfl, by decide⟩

/-- Claim C6: every fatal startup error (missing argument, unopenable input,
failed stream probe, no decodable video stream, video dimensions smaller than
the 3×3 grid shape, codec-context setup failure) makes the run abort with exit
code `-1` before the pipeline starts and with no output; and whenever the
pipeline has started and the producer loop hits a mid-stream read or decode
error, the run exits `-1` without writing the CSV, discarding whatever was
already aggregated. -/
theorem C6_fatal_and_midstream_abort (env : RunEnv) :
    ((env.argc < 2 ∨ env.openOk = false ∨ env.streamInfoOk = false ∨
        env.videoStream = none ∨
        (∃ w h, env.videoStream = some (w, h) ∧
          (w < (HorizontalCellCount : Int) ∨ h < (VerticalCellCount : Int))) ∨
        env.paramsToContextOk = false ∨ env.codecOpenOk = false) →
      mainRun env = ⟨-1, false, false⟩) ∧
    ((mainRun env).pipelineStarted = true → runLoop env.packets = false →
      mainRun env = ⟨-1, true, false⟩) := by
  constructor
  · intro h
    rcases hvs : env.videoStream with _ | wh
    · simp only [mainRun, hvs]
      split_ifs <;> rfl
    · simp only [mainRun, hvs]
      split_ifs with h1 h2 h3 h4 h5 h6 h7 <;> try rfl
      all_goals {
        exfalso
        rcases h with h | h | h | h | ⟨w, ht, heq, hlt⟩ | h | h
        · exact h1 h
        · exact h2 h
        · exact h3 h
        · rw [hvs] at h; exact Option.noConfusion h
        · rw [hvs] at heq
          have hw : wh = (w, ht) := by injection heq
          rw [hw] at h4
          simp only at h4
          rcases hlt with hlt | hlt <;> exact h4 (by tauto)
        · exact h5 h
        · exact h6 h
      }
  · intro hstart hloop
    rcases hvs : env.videoStream with _ | wh <;>
      simp only [mainRun, hvs] at hstart ⊢ <;>
      split_ifs at hstart ⊢ <;> simp_all

/-- Witness for C6: a run with an unopenable input aborts with `-1` before the
pipeline starts, and a run that starts but hits a read error mid-stream exits
`-1` without writing output. -/
theorem C6_fatal_and_midstream_abort_witness :
    mainRun ⟨2, false, true, some (9, 9), true, true, [], true⟩ = ⟨-1, false, false⟩ ∧
    mainRun ⟨2, true, true, some (9, 9), true, true, [ReadResult.readError], true⟩ =
      ⟨-1, true, false⟩ :=
  ⟨(C6_fatal_and_midstream_abort ⟨2, false, true, some (9, 9), true, true, [], true⟩).1
      (Or.inr (Or.inl rfl)),
    (C6_fatal_and_midstream_abort
        ⟨2, true, true, some (9, 9), true, true, [ReadResult.readError], true⟩).2
      (by decide) (by decide)⟩

lemma systemStep_no_drop (turn : Bool) (s : ProducerState) :
    (systemStep turn s).enqueued ++ (systemStep turn s).pending.flatten =
      s.enqueued ++ s.pending.flatten := by
  obtain ⟨q, p, e, sl⟩ := s
  cases turn
  · show (workerPop ⟨q, p, e, sl⟩).enqueued ++ (workerPop ⟨q, p, e, sl⟩).pending.flatten = _
    cases q <;> rfl
  · show (producerIteration ⟨q, p, e, sl⟩).enqueued ++
        (producerIteration ⟨q, p, e, sl⟩).pending.flatten = _
    unfold producerIteration
    split_ifs with hfull
    · rfl
    · cases p with
      | nil => rfl
      | cons frames rest => simp [List.flatten_cons]

/-- Claim C7: when the queue holds at least `MaxUnprocessedFrameCount = 100`
frames at the producer's size check, the producer iteration reads no packet
and enqueues nothing — it only sleeps the fixed 10 ms and re-checks (the state
is unchanged except for the slept time); and across any interleaving of
producer iterations and worker pops, the frames ever enqueued together with
the frames still pending in the stream are exactly the original pending
frames — backpressure never drops a decoded frame, so once the stream is
drained every decoded frame has been enqueued. -/
theorem C7_backpressure (s : ProducerState) :
    (MaxUnprocessedFrameCount ≤ s.queue.length →
      producerIteration s = ⟨s.queue, s.pending, s.enqueued, s.sleptMs + 10⟩) ∧
    ∀ sched : List Bool,
      (systemRun sched s).enqueued ++ (systemRun sched s).pending.flatten =
        s.enqueued ++ s.pending.flatten := by
  constructor
  · intro h
    simp [producerIteration, h]
  · intro sched
    induction sched generalizing s with
    | nil => rfl
    | cons turn rest ih =>
      calc (systemRun (turn :: rest) s).enqueued ++
            (systemRun (turn :: rest) s).pending.flatten
        = (systemRun rest (systemStep turn s)).enqueued ++
            (systemRun rest (systemStep turn s)).pending.flatten := rfl
        _ = (systemStep turn s).enqueued ++ (systemStep turn s).pending.flatten :=
            ih (systemStep turn s)
        _ = s.enqueued ++ s.pending.flatten := systemStep_no_drop turn s

/-- Witness for C7: with exactly 100 frames queued the producer only sleeps,
and over a producer-then-worker interleaving no pending frame is lost. -/
theorem C7_backpressure_witness :
    producerIteration ⟨List.replicate 100 0, [[1]], [], 0⟩ =
      ⟨List.replicate 100 0, [[1]], [], 0 + 10⟩ ∧
    (systemRun [false, true] ⟨List.replicate 100 0, [[1]], [], 0⟩).enqueued ++
        (systemRun [false, true] ⟨List.replicate 100 0, [[1]], [], 0⟩).pending.flatten =
      ([] : List Nat) ++ [[1]].flatten :=
  ⟨(C7_backpressure ⟨List.replicate 100 0, [[1]], [], 0⟩).1 (by decide),
    (C7_backpressure ⟨List.replicate 100 0, [[1]], [], 0⟩).2 [false, true]⟩

/-- Claim C8: every fingerprint built by the analysis carries exactly
`R*C = 3*3` values; when the per-frame grayscale allocation/conversion step
fails, `processKeyframe` inserts nothing into the aggregate; and the worker's
exit decision is the same whether the frame step failed or succeeded — a
per-frame failure terminates neither the worker loop nor the pipeline (exit is
driven solely by the prior exit state and the `processingComplete` flag). -/
theorem C8_fingerprint_integrity (timeBase : ℚ) (frame : Frame)
    (aggregate : List FrameAnalysis) (processingComplete : Bool) (s : WorkerState) :
    (frameAnalysisOf timeBase frame).values.length =
      VerticalCellCount * HorizontalCellCount ∧
    processKeyframe timeBase false frame aggregate = aggregate ∧
    (workerIteration processingComplete timeBase false s).exited =
      (workerIteration processingComplete timeBase true s).exited ∧
    (workerIteration processingComplete timeBase true s).exited =
      (s.exited || processingComplete) := by
  refine ⟨analyzeGrayscaleFrameValues_length _ _ _ _, rfl, ?_, ?_⟩ <;>
    · unfold workerIteration
      cases hex : s.exited <;> cases s.queue <;> simp [hex]

/-- Claim C9 counterexample: with a detected hardware concurrency of `2` the
pool spawns exactly `2` worker threads — fewer than the minimum of `4` the
claim asserts. -/
theorem C9_counterexample :
    spawnedThreadCount 2 = 2 ∧ spawnedThreadCount 2 < 4 := by
  exact ⟨rfl, by decide⟩

/-- Claim C9 as amended: the pool spawns exactly `hardware_concurrency()`
threads whenever that value is nonzero, and `4` threads only when hardware
parallelism is undetectable (reported as `0`); `4` is a fallback for the
undetectable case, not a lower bound. -/
theorem C9_pool_size :
    spawnedThreadCount 0 = 4 ∧
    ∀ hardwareConcurrency : Nat, hardwareConcurrency ≠ 0 →
      spawnedThreadCount hardwareConcurrency = hardwareConcurrency := by
  constructor
  · rfl
  · intro hw h
    simp [spawnedThreadCount, threadCount, h]

/-- Witness for C9 at hardware concurrency `3`. -/
theorem C9_pool_size_witness : spawnedThreadCount 3 = 3 :=
  C9_pool_size.2 3 (by decide)

/-- Claim C10 counterexample: for a pixel vector of exactly 2 elements the
`max_element` search range `[v.begin(), v.begin() + size/2 - 1)` of `median`'s
even branch contains `2/2 - 1 = 0` elements — it is empty, refuting the claim
that the range is non-empty for every even-sized input including size 2. -/
theorem C10_counterexample : maxElementRangeLength 2 = 0 := rfl

/-- Claim C10 as amended: for every non-empty pixel vector, `median` reads
only in-bounds indices — the middle index and, in the even branch, the
`max_element` range (or index 0, the dereference of the first iterator that
`max_element` returns when the range is empty); the range itself is empty
exactly for buffers smaller than 4 elements, so for a 2-element cell (such as
the 1×2 cells the grid recurrence produces) the result is still a safe
dereference of a valid element, not an out-of-bounds access. -/
theorem C10_median_access_bounds (v : List Nat) (hv : v ≠ []) :
    (∀ i ∈ medianReadIndices v.length, i < v.length) ∧
    (maxElementRangeLength v.length = 0 ↔ v.length < 4) := by
  have hpos : 1 ≤ v.length := List.length_pos.mpr hv
  constructor
  · intro i hi
    by_cases hodd : v.length % 2 = 1
    · simp only [medianReadIndices, if_pos hodd, List.mem_singleton] at hi
      omega
    · by_cases hsmall : v.length / 2 - 1 = 0
      · simp only [medianReadIndices, if_neg hodd, if_pos hsmall, List.mem_cons,
          List.not_mem_nil, or_false] at hi
        rcases hi with hi | hi <;> omega
      · simp only [medianReadIndices, if_neg hodd, if_neg hsmall, List.mem_cons,
          List.mem_range] at hi
        rcases hi with hi | hi <;> omega
  · unfold maxElementRangeLength
    omega

/-- Witness for C10 at the 2-element vector `[7, 7]`. -/
theorem C10_median_access_bounds_witness :
    (∀ i ∈ medianReadIndices ([7, 7] : List Nat).length, i < ([7, 7] : List Nat).length) ∧
    (maxElementRangeLength ([7, 7] : List Nat).length = 0 ↔ ([7, 7] : List Nat).length < 4) :=
  C10_median_access_bounds [7, 7] (by simp)

end AnalyzeKeyframes
